import Mathlib

/-!
# zjmeow/monitor — balance poller and change notifier (`main.go`)

A shallow embedding of `main.go` and the properties of its polling loop.

* `Float64` models Go's `float64` (IEEE 754 binary64, round to nearest, ties to
  even).  Every finite binary64 value is an integer multiple of `2^-1074`, so a
  finite value is stored as a sign and a magnitude counted in that unit.
  NaN payloads are identified: the program never observes them.
* The blockchain SDK, the RPC endpoint, `strconv.ParseFloat` and the webhook are
  outside the repository; their results are inputs of the model.
* `Monitor.Run` consumes the ticks delivered by the ticker as a list; each tick
  lists the tracked assets in the order in which the `range` over the map
  visited them, each with what the outside world answered for it.
* A run-time panic (the nil dereference in `GetAtaBalance`) ends the process:
  `Progress` records the monitor and the trace reached and whether the run died.
-/

namespace Main

/-! ## float64 -/

/-- Go `float64`.  `finite neg k` is the number `(-1)^neg * k * 2^-1074`. -/
inductive Float64 where
  | nan
  | inf (neg : Bool)
  | finite (neg : Bool) (k : Nat)
deriving DecidableEq, Repr

namespace Float64

/-- Magnitude (in units of `2^-1074`) from which a result overflows: `2^1024`. -/
def overflowUnits : Nat := 2 ^ 2098

/-- Number of binary digits of `n`, with `fuel` bounding the number of halvings. -/
def bitLenAux : Nat → Nat → Nat
  | 0, _ => 0
  | fuel + 1, n => if n = 0 then 0 else bitLenAux fuel (n / 2) + 1

/-- Number of binary digits of `n` (`0` for `0`). -/
def bitLen (n : Nat) : Nat := bitLenAux n n

/-- Magnitudes that are binary64 values: at most 53 significant bits, below `2^1024`. -/
def Representable (k : Nat) : Bool :=
  decide (k < overflowUnits) && k % 2 ^ (bitLen k - 53) == 0

/-- Values of the type that are binary64 values. -/
def Valid : Float64 → Bool
  | finite _ k => Representable k
  | _ => true

/-- The literal `0` (positive zero), also the zero value of a missing map entry. -/
def zero : Float64 := finite false 0

/-- Go `x == y` on float64: NaN equals nothing, `+0 == -0`. -/
def eq : Float64 → Float64 → Bool
  | finite a k, finite b l => (k == 0 && l == 0) || (a == b && k == l)
  | inf a, inf b => a == b
  | _, _ => false

/-- Go `x != y` on float64. -/
def ne (x y : Float64) : Bool := !(eq x y)

/-- Go `x < y` on float64. -/
def lt : Float64 → Float64 → Bool
  | nan, _ => false
  | _, nan => false
  | inf a, inf b => a && !b
  | inf a, finite _ _ => a
  | finite _ _, inf b => !b
  | finite a k, finite b l =>
      match a, b with
      | false, false => decide (k < l)
      | true, true => decide (l < k)
      | true, false => !(k == 0 && l == 0)
      | false, true => false

/-- Same sign in the sense of Go's comparisons: positive together, negative together, zero
together (a NaN is none of the three). -/
def sameSign (x y : Float64) : Bool :=
  (lt zero x == lt zero y) && (lt x zero == lt y zero) && (eq x zero == eq y zero)

/-- Round `n * 2^-base` units to the nearest magnitude with 53 significant bits
that is a whole number of units, ties to even. -/
def roundUnits (n base : Nat) : Nat :=
  let shift := max (bitLen n - 53) base
  let q := n / 2 ^ shift
  let r := n % 2 ^ shift
  let q1 := if 2 ^ shift < 2 * r ∨ (2 * r = 2 ^ shift ∧ q % 2 = 1) then q + 1 else q
  q1 * 2 ^ (shift - base)

/-- The float64 nearest to `(-1)^neg * n * 2^-base` units; overflow gives an infinity. -/
def ofUnits (neg : Bool) (n base : Nat) : Float64 :=
  let u := roundUnits n base
  if u < overflowUnits then finite neg u else inf neg

/-- Unary minus. -/
def neg : Float64 → Float64
  | nan => nan
  | inf a => inf (!a)
  | finite a k => finite (!a) k

/-- Go `x + y` on float64. -/
def add : Float64 → Float64 → Float64
  | nan, _ => nan
  | _, nan => nan
  | inf a, inf b => if a = b then inf a else nan
  | inf a, finite _ _ => inf a
  | finite _ _, inf b => inf b
  | finite a k, finite b l =>
      if a = b then ofUnits a (k + l) 0
      else if l < k then ofUnits a (k - l) 0
      else if k < l then ofUnits b (l - k) 0
      else zero

/-- Go `x - y` on float64. -/
def sub (x y : Float64) : Float64 := add x (neg y)

/-- Go `x * y` on float64. -/
def mul : Float64 → Float64 → Float64
  | nan, _ => nan
  | _, nan => nan
  | inf a, inf b => inf (a != b)
  | inf a, finite b l => if l = 0 then nan else inf (a != b)
  | finite a k, inf b => if k = 0 then nan else inf (a != b)
  | finite a k, finite b l => ofUnits (a != b) (k * l) 1074

/-- The positive float64 `m / 2^d`, for `m < 2^53` and `d ≤ 1074` (used for literals). -/
def ofDyadic (m d : Nat) : Float64 := finite false (m * 2 ^ (1074 - d))

end Float64

set_option exponentiation.threshold 4096

/-! ## Data model -/

/-- Go `error` values that are not nil, by their message. -/
abbrev Error := String

/-- `solana.PublicKey`: 32 bytes, read as one number. -/
structure PublicKey where
  val : Nat
deriving DecidableEq, Repr

/-- `rpc.UiTokenAmount`, the fields `GetAtaBalance` reads from the value of a response. -/
structure UiTokenAmount where
  Amount : String
  UiAmountString : String
deriving DecidableEq, Repr

/-- Library functions of the run: the SDK's address derivation and `strconv.ParseFloat`. -/
structure Env where
  FindAssociatedTokenAddress : PublicKey → PublicKey → Except Error (PublicKey × Nat)
  ParseFloat : String → Except Error Float64

/-- What `http.Get` and `io.ReadAll` give back for one webhook request. -/
inductive HttpOutcome where
  | getErr (err : Error)
  | readErr (err : Error)
  | body (text : String)
deriving DecidableEq, Repr

/-- What the network answers while one asset is processed: the RPC answer for a token
account and the outcome of the webhook request, should one be made.  The RPC client
returns a pointer and an error: `.ok none` is a nil error together with a result that
carries no value (a nil result or a nil `Value`). -/
structure Net where
  GetTokenAccountBalance : PublicKey → Except Error (Option UiTokenAmount)
  http : HttpOutcome

/-- The arguments of the `Sprintf` that builds the notification title, in order:
`"赚钱了！ %.4f RMB！%s利润: %.4f;余额%.4f->%.4f"`. -/
structure Title where
  rmb : Float64
  name : String
  diff : Float64
  before : Float64
  after : Float64
deriving DecidableEq, Repr

/-- One observable effect: a line on the console or the webhook request. -/
inductive Effect where
  | printTitle (title : Title)
  | httpGet (title : Title)
  | printErr (err : Error)
  | printBody (text : String)
  | printNoChange (name : String) (balance : Float64)
deriving DecidableEq, Repr

/-- What the body of the inner loop of `Run` did for one asset that was fetched:
it called `sendNotification` (whose effects are recorded) or printed `nochange`. -/
inductive Step where
  | sendNotification (name : String) (before after : Float64) (effects : List Effect)
  | nochange (name : String) (after : Float64)
deriving DecidableEq, Repr

/-- `keyToRMB` as written: 3.6, 7.2, 1152, 1000, 1200. -/
def keyToRMBTable : List (String × Float64) :=
  [ ("XSOL", Float64.ofDyadic 8106479329266893 51),
    ("HYUSD", Float64.ofDyadic 8106479329266893 50),
    ("JITOSOL", Float64.ofDyadic 1152 0),
    ("WSOL", Float64.ofDyadic 1000 0),
    ("BSOL", Float64.ofDyadic 1200 0) ]

/-- `keyToRMB[name]`: the zero value for a missing key. -/
def keyToRMB (name : String) : Float64 :=
  (keyToRMBTable.lookup name).getD Float64.zero

/-- `Monitor` (the RPC client is part of `Net`). -/
structure Monitor where
  address : PublicKey
  interval : Nat
  balance : PublicKey → Option Float64
  mints : List (String × PublicKey)

/-- `m.balance[mint]`: the zero value for a missing key. -/
def Monitor.balanceAt (m : Monitor) (mint : PublicKey) : Float64 :=
  (m.balance mint).getD Float64.zero

/-- `m.balance[mint] = after`. -/
def Monitor.setBalance (m : Monitor) (mint : PublicKey) (after : Float64) : Monitor :=
  { m with balance := fun k => if k = mint then some after else m.balance k }

/-- `NewMonitor`: the snapshot starts empty. -/
def NewMonitor (address : PublicKey) (interval : Nat) (mints : List (String × PublicKey)) :
    Monitor :=
  { address := address, interval := interval, balance := fun _ => none, mints := mints }

/-! ## `math/big` -/

/-- Decimal digits of `(*big.Int).SetString(s, 10)`: every byte must be a digit. -/
def scanDigits : List Char → Nat → Option Nat
  | [], acc => some acc
  | c :: cs, acc =>
      if '0' ≤ c ∧ c ≤ '9' then scanDigits cs (acc * 10 + (c.toNat - '0'.toNat)) else none

/-- `new(big.Int).SetString(s, 10)`: an optional sign, then at least one digit, then the
end of the string (no blank, no underscore, no prefix). -/
def SetString (s : String) : Option Int :=
  let scanned : Bool × List Char :=
    match s.toList with
    | '-' :: rest => (true, rest)
    | '+' :: rest => (false, rest)
    | cs => (false, cs)
  if scanned.2 = [] then none
  else
    match scanDigits scanned.2 0 with
    | none => none
    | some n => some (if scanned.1 then -(n : Int) else (n : Int))

/-- `(*big.Int).Uint64()`: the low 64 bits of the absolute value. -/
def Uint64 (x : Int) : Nat := x.natAbs % 2 ^ 64

/-! ## The program -/

/-- `Monitor.GetAtaBalance`: the tuple it returns, or `none` when it does not return:
`balanceResp.Value.Amount` is read without a nil check, so a reply without a value and
without an error is a nil dereference, a run-time panic. -/
def GetAtaBalance (env : Env) (net : Net) (address mint : PublicKey) :
    Option (Nat × Float64 × Option Error) :=
  match env.FindAssociatedTokenAddress address mint with
  | .error err => some (0, Float64.zero, some err)
  | .ok (ata, _) =>
    match net.GetTokenAccountBalance ata with
    | .error err => some (0, Float64.zero, some err)
    | .ok none => none
    | .ok (some value) =>
      let balance := value.Amount
      let uiAmount := value.UiAmountString
      match env.ParseFloat uiAmount with
      | .error err => some (0, Float64.zero, some err)
      | .ok uiAmountFloat =>
        match SetString balance with
        | none => some (0, Float64.zero, some "failed to parse balance")
        | some bigAmount => some (Uint64 bigAmount, uiAmountFloat, none)

/-- The title built by `sendNotification`. -/
def notificationTitle (name : String) (before after : Float64) : Title :=
  let diff := Float64.sub after before
  { rmb := Float64.mul (keyToRMB name) diff, name := name, diff := diff,
    before := before, after := after }

/-- `Monitor.sendNotification`: its effects, in order. -/
def sendNotification (http : HttpOutcome) (name : String) (before after : Float64) :
    List Effect :=
  let title := notificationTitle name before after
  match http with
  | .getErr err => [.printTitle title, .httpGet title, .printErr err]
  | .readErr _ => [.printTitle title, .httpGet title]
  | .body text => [.printTitle title, .httpGet title, .printBody text]

/-- How far the process got: the monitor, the trace so far, and whether it died of a
panic (nothing recovers a panic in `main.go`). -/
structure Progress where
  monitor : Monitor
  steps : List Step
  panicked : Bool

/-- Sequencing: what `next` does follows what was done, unless the process has died. -/
def Progress.andThen (r : Progress) (next : Monitor → Progress) : Progress :=
  if r.panicked then r
  else
    { monitor := (next r.monitor).monitor,
      steps := r.steps ++ (next r.monitor).steps,
      panicked := (next r.monitor).panicked }

/-- The body of the inner loop of `Monitor.Run` for one entry of `m.mints`. -/
def processAsset (env : Env) (net : Net) (m : Monitor) (name : String) (mint : PublicKey) :
    Progress :=
  match GetAtaBalance env net m.address mint with
  | none => { monitor := m, steps := [], panicked := true }
  | some (_, _, some _) => { monitor := m, steps := [], panicked := false }
  | some (_, balance, none) =>
    let before := m.balanceAt mint
    let after := balance
    let steps :=
      if Float64.ne before Float64.zero && Float64.ne before after then
        [Step.sendNotification name before after (sendNotification net.http name before after)]
      else [Step.nochange name after]
    { monitor := m.setBalance mint after, steps := steps, panicked := false }

/-- One tick: the order in which `range m.mints` visits the tracked assets, and what the
network answers while each of them is processed (keyed by symbol, the key of `m.mints`). -/
structure Tick where
  order : List (String × PublicKey)
  net : String → Net

/-- The inner loop of `Monitor.Run` over the entries in the order given. -/
def rangeMints (env : Env) (net : String → Net) (m : Monitor) :
    List (String × PublicKey) → Progress
  | [] => { monitor := m, steps := [], panicked := false }
  | (name, mint) :: rest =>
      (processAsset env (net name) m name mint).andThen (fun m2 => rangeMints env net m2 rest)

/-- One iteration of the outer loop of `Monitor.Run`. -/
def tick (env : Env) (m : Monitor) (t : Tick) : Progress :=
  rangeMints env t.net m t.order

/-- `Monitor.Run` over the ticks the ticker delivers. -/
def Run (env : Env) (m : Monitor) : List Tick → Progress
  | [] => { monitor := m, steps := [], panicked := false }
  | t :: ts => (tick env m t).andThen (fun m2 => Run env m2 ts)

/-- The progress of `Run` when the asset that follows `pre` is about to be polled in tick
`t`, the ticks `earlier` being over. -/
def beforePoll (env : Env) (m : Monitor) (earlier : List Tick) (t : Tick)
    (pre : List (String × PublicKey)) : Progress :=
  (Run env m earlier).andThen (fun m2 => rangeMints env t.net m2 pre)

/-- A tick of monitor `m` visits exactly the entries of `m.mints`, in some order. -/
def Tick.visits (t : Tick) (m : Monitor) : Prop := t.order.Perm m.mints

/-- The calls of `sendNotification` in a trace, as (symbol, previous, current). -/
def notifications : List Step → List (String × Float64 × Float64)
  | [] => []
  | .sendNotification name before after _ :: rest => (name, before, after) :: notifications rest
  | .nochange _ _ :: rest => notifications rest

/-- The console output of a trace, in order. -/
def console : List Step → List Effect
  | [] => []
  | .sendNotification _ _ _ effects :: rest =>
      effects.filter (fun e => match e with | .httpGet _ => false | _ => true) ++ console rest
  | .nochange name after :: rest => .printNoChange name after :: console rest

/-- Two runs agree up to the order of the notifications: both died or neither did, and
when neither did they reached the same monitor with the same calls of `sendNotification`
up to order. -/
def Progress.sameUpToOrder (a b : Progress) : Prop :=
  a.panicked = b.panicked
    ∧ (a.panicked = false →
        a.monitor = b.monitor ∧ (notifications a.steps).Perm (notifications b.steps))

/-! ## Sample inputs -/

/-- 10.0 -/
def f10 : Float64 := Float64.ofDyadic 10 0

/-- 12.5 -/
def f12_5 : Float64 := Float64.ofDyadic 25 1

/-- 1.0 -/
def f1 : Float64 := Float64.ofDyadic 1 0

/-- 2.0 -/
def f2 : Float64 := Float64.ofDyadic 2 0

/-- A wallet address. -/
def wallet : PublicKey := ⟨1⟩

/-- A mint tracked as "WSOL". -/
def wsol : PublicKey := ⟨2⟩

/-- A mint tracked as "BSOL". -/
def bsol : PublicKey := ⟨3⟩

/-- A stand-in for the library: some derivation of the token account, and `ParseFloat` on
the two strings the samples use (every other string is rejected here). -/
def sampleEnv : Env where
  FindAssociatedTokenAddress := fun address mint => .ok (⟨1000 * address.val + mint.val⟩, 255)
  ParseFloat := fun s =>
    if s = "10" then .ok f10
    else if s = "12.5" then .ok f12_5
    else .error "strconv.ParseFloat: invalid syntax"

/-- The RPC answers 12.5 and the webhook answers. -/
def netOk : Net where
  GetTokenAccountBalance := fun _ => .ok (some ⟨"12500000000", "12.5"⟩)
  http := .body "ok"

/-- The RPC answers 12.5 and the webhook request fails. -/
def netHttpFail : Net where
  GetTokenAccountBalance := fun _ => .ok (some ⟨"12500000000", "12.5"⟩)
  http := .getErr "dial tcp: i/o timeout"

/-- The RPC call fails. -/
def netRpcFail : Net where
  GetTokenAccountBalance := fun _ => .error "rpc: 429 too many requests"
  http := .body "ok"

/-- The RPC answers with a negative raw amount. -/
def netNegative : Net where
  GetTokenAccountBalance := fun _ => .ok (some ⟨"-5", "10"⟩)
  http := .body "ok"

/-- The RPC answers without an error and without a value. -/
def netNilValue : Net where
  GetTokenAccountBalance := fun _ => .ok none
  http := .body "ok"

/-- The RPC answers 10 and the webhook answers. -/
def netOk10 : Net where
  GetTokenAccountBalance := fun _ => .ok (some ⟨"10000000000", "10"⟩)
  http := .body "ok"

/-- A tick that visits "WSOL" and fetches 10.0. -/
def tickSees10 : Tick := ⟨[("WSOL", wsol)], fun _ => netOk10⟩

/-- A tick that visits "WSOL" and fetches 12.5. -/
def tickSees12_5 : Tick := ⟨[("WSOL", wsol)], fun _ => netOk⟩

/-- A tick that visits "WSOL" and gets a reply without a value. -/
def tickNilValue : Tick := ⟨[("WSOL", wsol)], fun _ => netNilValue⟩

/-- The RPC fails for "BSOL" and answers 12.5 for every other symbol. -/
def netBsolDown : String → Net :=
  fun name => if name = "BSOL" then netRpcFail else netOk

/-- The RPC answers "BSOL" without an error and without a value, and answers 12.5 for every
other symbol. -/
def netBsolNil : String → Net :=
  fun name => if name = "BSOL" then netNilValue else netOk

/-- The monitor of the samples: two tracked assets, ticking every 3 minutes. -/
def sampleMonitor : Monitor := NewMonitor wallet 180000000000 [("WSOL", wsol), ("BSOL", bsol)]

/-- The sample monitor after it has seen 10.0 for "WSOL". -/
def monitorAt10 : Monitor := sampleMonitor.setBalance wsol f10

/-! ## float64 facts -/

theorem Float64.bitLenAux_pow_le (fuel : Nat) :
    ∀ n, 0 < n → n ≤ fuel → 2 ^ Float64.bitLenAux fuel n ≤ 2 * n := by
  induction fuel with
  | zero => intro n h0 h; omega
  | succ f ih =>
    intro n h0 h
    have hn : n ≠ 0 := by omega
    simp only [Float64.bitLenAux, hn, if_false]
    by_cases h2 : n / 2 = 0
    · have h1 : n = 1 := by omega
      subst h1
      cases f <;> simp [Float64.bitLenAux]
    · have := ih (n / 2) (by omega) (by omega)
      rw [pow_succ]
      omega

theorem Float64.pow_bitLen_le (n : Nat) (h : 0 < n) : 2 ^ Float64.bitLen n ≤ 2 * n :=
  Float64.bitLenAux_pow_le n n h (le_refl n)

theorem Float64.roundUnits_zero (base : Nat) : Float64.roundUnits 0 base = 0 := by
  have h : (2 : Nat) ^ base ≠ 0 := by positivity
  simp [Float64.roundUnits, Float64.bitLen, Float64.bitLenAux, h, Ne.symm h]

theorem Float64.roundUnits_pos (n base : Nat) (h : 2 ^ base ≤ n) :
    0 < Float64.roundUnits n base := by
  have hn : 0 < n := lt_of_lt_of_le (by positivity) h
  have hb := Float64.pow_bitLen_le n hn
  have hs : 2 ^ max (Float64.bitLen n - 53) base ≤ n := by
    rcases le_total (Float64.bitLen n - 53) base with hm | hm
    · rw [max_eq_right hm]; exact h
    · rw [max_eq_left hm]
      by_cases h0 : Float64.bitLen n = 0
      · rw [h0]; simpa using hn
      · have h1 : 2 ^ (Float64.bitLen n - 53) ≤ 2 ^ (Float64.bitLen n - 1) :=
          Nat.pow_le_pow_right (by norm_num) (by omega)
        have h2 : 2 * 2 ^ (Float64.bitLen n - 1) = 2 ^ Float64.bitLen n := by
          rw [← pow_succ']; congr 1; omega
        omega
  have hq : 0 < n / 2 ^ max (Float64.bitLen n - 53) base :=
    Nat.div_pos hs (by positivity)
  unfold Float64.roundUnits
  simp only
  apply Nat.mul_pos
  · split <;> omega
  · positivity

theorem Float64.mul_sameSign (kr : Nat) (h : 2 ^ 1074 ≤ kr) (d : Float64) :
    Float64.sameSign (Float64.mul (Float64.finite false kr) d) d = true := by
  have hk : kr ≠ 0 := by
    have : 0 < 2 ^ 1074 := by positivity
    omega
  cases d with
  | nan => rfl
  | inf b => cases b <;> simp [Float64.mul, hk, Float64.sameSign, Float64.lt, Float64.eq, Float64.zero]
  | finite b l =>
    by_cases hl : l = 0
    · subst hl
      cases b <;>
        simp [Float64.mul, Float64.ofUnits, Float64.roundUnits_zero, Float64.overflowUnits,
          Float64.sameSign]
    · have hp : 0 < Float64.roundUnits (kr * l) 1074 :=
        Float64.roundUnits_pos _ _ (le_trans h (Nat.le_mul_of_pos_right kr (by omega)))
      have hp0 : Float64.roundUnits (kr * l) 1074 ≠ 0 := by omega
      have hl0 : 0 < l := by omega
      cases b <;>
        simp only [Float64.mul, Float64.ofUnits] <;> split <;>
        simp [Float64.sameSign, Float64.lt, Float64.eq, Float64.zero, hl, hp, hp0, hl0]

theorem keyToRMB_ge_one (name : String) (hname : name ∈ keyToRMBTable.map Prod.fst) :
    ∃ kr, 2 ^ 1074 ≤ kr ∧ keyToRMB name = Float64.finite false kr := by
  simp only [keyToRMBTable, List.map_cons, List.map_nil, List.mem_cons, List.mem_singleton,
    List.not_mem_nil, or_false] at hname
  rcases hname with h | h | h | h | h <;> subst h
  · exact ⟨8106479329266893 * 2 ^ (1074 - 51), by decide, rfl⟩
  · exact ⟨8106479329266893 * 2 ^ (1074 - 50), by decide, rfl⟩
  · exact ⟨1152 * 2 ^ (1074 - 0), by decide, rfl⟩
  · exact ⟨1000 * 2 ^ (1074 - 0), by decide, rfl⟩
  · exact ⟨1200 * 2 ^ (1074 - 0), by decide, rfl⟩

/-! ## The loop -/

theorem Progress.andThen_of_panicked (r : Progress) (next : Monitor → Progress)
    (h : r.panicked = true) : r.andThen next = r := by
  simp [Progress.andThen, h]

theorem Progress.andThen_of_alive (r : Progress) (next : Monitor → Progress)
    (h : r.panicked = false) :
    r.andThen next
      = { monitor := (next r.monitor).monitor,
          steps := r.steps ++ (next r.monitor).steps,
          panicked := (next r.monitor).panicked } := by
  simp [Progress.andThen, h]

theorem Progress.done_andThen (m : Monitor) (next : Monitor → Progress) :
    Progress.andThen { monitor := m, steps := [], panicked := false } next = next m := by
  simp [Progress.andThen]

theorem Progress.andThen_assoc (r : Progress) (f g : Monitor → Progress) :
    (r.andThen f).andThen g = r.andThen (fun m => (f m).andThen g) := by
  cases hr : r.panicked
  · cases hf : (f r.monitor).panicked <;>
      simp [Progress.andThen, hr, hf, List.append_assoc]
  · simp [Progress.andThen, hr]

theorem Monitor.setBalance_address (m : Monitor) (k : PublicKey) (a : Float64) :
    (m.setBalance k a).address = m.address := rfl

theorem processAsset_of_panic (env : Env) (net : Net) (m : Monitor) (name : String)
    (mint : PublicKey) (h : GetAtaBalance env net m.address mint = none) :
    processAsset env net m name mint = { monitor := m, steps := [], panicked := true } := by
  simp [processAsset, h]

theorem processAsset_of_error (env : Env) (net : Net) (m : Monitor) (name : String)
    (mint : PublicKey) (raw : Nat) (b : Float64) (e : Error)
    (h : GetAtaBalance env net m.address mint = some (raw, b, some e)) :
    processAsset env net m name mint = { monitor := m, steps := [], panicked := false } := by
  simp [processAsset, h]

theorem processAsset_of_ok (env : Env) (net : Net) (m : Monitor) (name : String)
    (mint : PublicKey) (raw : Nat) (a : Float64)
    (h : GetAtaBalance env net m.address mint = some (raw, a, none)) :
    processAsset env net m name mint
      = { monitor := m.setBalance mint a,
          steps :=
            if Float64.ne (m.balanceAt mint) Float64.zero && Float64.ne (m.balanceAt mint) a then
              [Step.sendNotification name (m.balanceAt mint) a
                (sendNotification net.http name (m.balanceAt mint) a)]
            else [Step.nochange name a],
          panicked := false } := by
  simp [processAsset, h]

theorem processAsset_balance_self (env : Env) (net : Net) (m : Monitor) (name : String)
    (mint : PublicKey) (raw : Nat) (a : Float64)
    (h : GetAtaBalance env net m.address mint = some (raw, a, none)) :
    (processAsset env net m name mint).monitor.balance mint = some a := by
  rw [processAsset_of_ok env net m name mint raw a h]
  simp [Monitor.setBalance]

theorem processAsset_address (env : Env) (net : Net) (m : Monitor) (name : String)
    (mint : PublicKey) : (processAsset env net m name mint).monitor.address = m.address := by
  rcases h : GetAtaBalance env net m.address mint with _ | ⟨raw, b, _ | e⟩
  · rw [processAsset_of_panic env net m name mint h]
  · rw [processAsset_of_ok env net m name mint raw b h]; rfl
  · rw [processAsset_of_error env net m name mint raw b e h]

theorem Progress.andThen_address (r : Progress) (next : Monitor → Progress)
    (h : ∀ m, (next m).monitor.address = m.address) :
    (r.andThen next).monitor.address = r.monitor.address := by
  cases hr : r.panicked
  · rw [Progress.andThen_of_alive r next hr]; exact h _
  · rw [Progress.andThen_of_panicked r next hr]

theorem rangeMints_address (env : Env) (net : String → Net) (l : List (String × PublicKey)) :
    ∀ m, (rangeMints env net m l).monitor.address = m.address := by
  induction l with
  | nil => intro m; rfl
  | cons x rest ih =>
    intro m
    obtain ⟨name, mint⟩ := x
    simp only [rangeMints]
    rw [Progress.andThen_address _ _ ih, processAsset_address]

theorem Run_address (env : Env) (ts : List Tick) :
    ∀ m, (Run env m ts).monitor.address = m.address := by
  induction ts with
  | nil => intro m; rfl
  | cons t rest ih =>
    intro m
    simp only [Run]
    rw [Progress.andThen_address _ _ ih]
    exact rangeMints_address env t.net t.order m

theorem rangeMints_append (env : Env) (net : String → Net) (l1 l2 : List (String × PublicKey)) :
    ∀ m, rangeMints env net m (l1 ++ l2)
      = (rangeMints env net m l1).andThen (fun m2 => rangeMints env net m2 l2) := by
  induction l1 with
  | nil => intro m; simp [rangeMints, Progress.done_andThen]
  | cons x rest ih =>
    intro m
    obtain ⟨name, mint⟩ := x
    rw [List.cons_append]
    simp only [rangeMints, ih, Progress.andThen_assoc]

theorem Run_append (env : Env) (ts1 ts2 : List Tick) :
    ∀ m, Run env m (ts1 ++ ts2) = (Run env m ts1).andThen (fun m2 => Run env m2 ts2) := by
  induction ts1 with
  | nil => intro m; simp [Run, Progress.done_andThen]
  | cons t rest ih =>
    intro m
    rw [List.cons_append]
    simp only [Run, ih, Progress.andThen_assoc]

theorem notifications_append (l1 l2 : List Step) :
    notifications (l1 ++ l2) = notifications l1 ++ notifications l2 := by
  induction l1 with
  | nil => rfl
  | cons x rest ih => cases x <;> simp [notifications, ih]

theorem GetAtaBalance_of_derivation_error (env : Env) (net : Net) (address mint : PublicKey)
    (e : Error) (h : env.FindAssociatedTokenAddress address mint = .error e) :
    GetAtaBalance env net address mint = some (0, Float64.zero, some e) := by
  simp [GetAtaBalance, h]

theorem GetAtaBalance_of_rpc_error (env : Env) (net : Net) (address mint ata : PublicKey)
    (bump : Nat) (e : Error) (h : env.FindAssociatedTokenAddress address mint = .ok (ata, bump))
    (hr : net.GetTokenAccountBalance ata = .error e) :
    GetAtaBalance env net address mint = some (0, Float64.zero, some e) := by
  simp [GetAtaBalance, h, hr]

theorem GetAtaBalance_of_nil_value (env : Env) (net : Net) (address mint ata : PublicKey)
    (bump : Nat) (h : env.FindAssociatedTokenAddress address mint = .ok (ata, bump))
    (hr : net.GetTokenAccountBalance ata = .ok none) :
    GetAtaBalance env net address mint = none := by
  simp [GetAtaBalance, h, hr]

theorem GetAtaBalance_of_float_error (env : Env) (net : Net) (address mint ata : PublicKey)
    (bump : Nat) (resp : UiTokenAmount) (e : Error)
    (h : env.FindAssociatedTokenAddress address mint = .ok (ata, bump))
    (hr : net.GetTokenAccountBalance ata = .ok (some resp))
    (hu : env.ParseFloat resp.UiAmountString = .error e) :
    GetAtaBalance env net address mint = some (0, Float64.zero, some e) := by
  simp [GetAtaBalance, h, hr, hu]

theorem GetAtaBalance_of_int_error (env : Env) (net : Net) (address mint ata : PublicKey)
    (bump : Nat) (resp : UiTokenAmount) (a : Float64)
    (h : env.FindAssociatedTokenAddress address mint = .ok (ata, bump))
    (hr : net.GetTokenAccountBalance ata = .ok (some resp))
    (hu : env.ParseFloat resp.UiAmountString = .ok a)
    (hs : SetString resp.Amount = none) :
    GetAtaBalance env net address mint
      = some (0, Float64.zero, some "failed to parse balance") := by
  simp [GetAtaBalance, h, hr, hu, hs]

theorem GetAtaBalance_of_parsed (env : Env) (net : Net) (address mint ata : PublicKey)
    (bump : Nat) (resp : UiTokenAmount) (a : Float64) (n : Int)
    (h : env.FindAssociatedTokenAddress address mint = .ok (ata, bump))
    (hr : net.GetTokenAccountBalance ata = .ok (some resp))
    (hu : env.ParseFloat resp.UiAmountString = .ok a)
    (hs : SetString resp.Amount = some n) :
    GetAtaBalance env net address mint = some (Uint64 n, a, none) := by
  simp [GetAtaBalance, h, hr, hu, hs]

theorem Monitor.setBalance_comm (m : Monitor) (k1 k2 : PublicKey) (a b : Float64)
    (h : k1 ≠ k2) :
    (m.setBalance k1 a).setBalance k2 b = (m.setBalance k2 b).setBalance k1 a := by
  simp only [Monitor.setBalance]
  congr 1
  funext k
  by_cases h1 : k = k1
  · subst h1; simp [h]
  · simp [h1]

theorem Monitor.setBalance_balanceAt_other (m : Monitor) (k other : PublicKey) (a : Float64)
    (h : other ≠ k) : (m.setBalance k a).balanceAt other = m.balanceAt other := by
  simp [Monitor.setBalance, Monitor.balanceAt, h]

theorem Progress.sameUpToOrder_refl (a : Progress) : a.sameUpToOrder a :=
  ⟨rfl, fun _ => ⟨rfl, List.Perm.refl _⟩⟩

theorem Progress.sameUpToOrder_trans {a b c : Progress} (hab : a.sameUpToOrder b)
    (hbc : b.sameUpToOrder c) : a.sameUpToOrder c := by
  refine ⟨hab.1.trans hbc.1, fun ha => ?_⟩
  have h1 := hab.2 ha
  have h2 := hbc.2 (hab.1 ▸ ha)
  exact ⟨h1.1.trans h2.1, h1.2.trans h2.2⟩

theorem Progress.sameUpToOrder_andThen {a b : Progress} {f g : Monitor → Progress}
    (hab : a.sameUpToOrder b) (hfg : ∀ m, (f m).sameUpToOrder (g m)) :
    (a.andThen f).sameUpToOrder (b.andThen g) := by
  cases ha : a.panicked
  · have hb : b.panicked = false := hab.1 ▸ ha
    obtain ⟨hm, hn⟩ := hab.2 ha
    rw [Progress.andThen_of_alive a f ha, Progress.andThen_of_alive b g hb, ← hm]
    refine ⟨(hfg a.monitor).1, fun hf => ?_⟩
    obtain ⟨hm2, hn2⟩ := (hfg a.monitor).2 hf
    refine ⟨hm2, ?_⟩
    simp only [notifications_append]
    exact List.Perm.append hn hn2
  · have hb : b.panicked = true := hab.1 ▸ ha
    rw [Progress.andThen_of_panicked a f ha, Progress.andThen_of_panicked b g hb]
    exact hab

theorem processAsset_swap (env : Env) (nx ny : Net) (m : Monitor) (x y : String × PublicKey)
    (h : x.2 ≠ y.2) :
    ((processAsset env ny m y.1 y.2).andThen (fun m2 => processAsset env nx m2 x.1 x.2)).sameUpToOrder
      ((processAsset env nx m x.1 x.2).andThen (fun m2 => processAsset env ny m2 y.1 y.2)) := by
  have hyx : y.2 ≠ x.2 := Ne.symm h
  rcases hx : GetAtaBalance env nx m.address x.2 with _ | ⟨rx, ax, _ | ex⟩ <;>
    rcases hy : GetAtaBalance env ny m.address y.2 with _ | ⟨ry, ay, _ | ey⟩ <;>
    simp [processAsset, hx, hy, Progress.andThen, Progress.sameUpToOrder,
      Monitor.setBalance_address, Monitor.setBalance_balanceAt_other, h, hyx,
      notifications_append]
  refine ⟨Monitor.setBalance_comm m y.2 x.2 _ _ hyx, ?_⟩
  split <;> split <;> simp [notifications, List.Perm.swap]

theorem rangeMints_perm (env : Env) (net : String → Net) {l1 l2 : List (String × PublicKey)}
    (hp : l1.Perm l2) :
    (l1.map Prod.snd).Nodup → ∀ m,
      (rangeMints env net m l1).sameUpToOrder (rangeMints env net m l2) := by
  induction hp with
  | nil => intro _ m; exact Progress.sameUpToOrder_refl _
  | cons x _ ih =>
    intro hnd m
    obtain ⟨name, mint⟩ := x
    rw [List.map_cons, List.nodup_cons] at hnd
    simp only [rangeMints]
    exact Progress.sameUpToOrder_andThen (Progress.sameUpToOrder_refl _) (ih hnd.2)
  | swap x y l =>
    intro hnd m
    obtain ⟨nx, mx⟩ := x
    obtain ⟨ny, my⟩ := y
    have hne : mx ≠ my := by
      intro h
      subst h
      simp at hnd
    have hswap := processAsset_swap env (net nx) (net ny) m (nx, mx) (ny, my) hne
    simp only [rangeMints, ← Progress.andThen_assoc]
    exact Progress.sameUpToOrder_andThen hswap (fun _ => Progress.sameUpToOrder_refl _)
  | trans p1 _ ih1 ih2 =>
    intro hnd m
    have hnd2 := (List.Perm.nodup_iff (List.Perm.map Prod.snd p1)).mp hnd
    exact Progress.sameUpToOrder_trans (ih1 hnd m) (ih2 hnd2 m)

/-! ## The model on the scenarios of the specification -/

theorem Float64.add_tenth_fifth :
    Float64.add (Float64.ofDyadic 3602879701896397 55) (Float64.ofDyadic 3602879701896397 54)
      = Float64.ofDyadic 1351079888211149 52 := by
  decide!

theorem Float64.mul_overflow :
    Float64.mul (Float64.finite false ((2 ^ 53 - 1) * 2 ^ 2045)) f2 = Float64.inf false := by
  decide!

theorem Float64.mul_underflow :
    Float64.mul (Float64.finite true 1) (Float64.ofDyadic 1 1) = Float64.finite true 0
      ∧ Float64.mul (Float64.finite true 3) (Float64.ofDyadic 1 1) = Float64.finite true 2 := by
  decide!

theorem keyToRMBTable_valid :
    keyToRMBTable.all (fun entry => Float64.Valid entry.2) = true := by
  decide!

theorem notificationTitle_wsol :
    notificationTitle "WSOL" f10 f12_5
      = ⟨Float64.ofDyadic 2500 0, "WSOL", Float64.ofDyadic 5 1, f10, f12_5⟩ := by
  decide!

theorem SetString_samples :
    SetString "-5" = some (-5)
      ∧ SetString "+18446744073709551616" = some 18446744073709551616
      ∧ SetString "007" = some 7
      ∧ SetString "" = none ∧ SetString "-" = none ∧ SetString "12a" = none
      ∧ SetString "1_000" = none ∧ SetString " 12" = none ∧ SetString "0x10" = none := by
  decide


theorem Run_wsol_changes :
    notifications (Run sampleEnv sampleMonitor [tickSees10, tickSees12_5]).steps
        = [("WSOL", f10, f12_5)]
      ∧ (Run sampleEnv sampleMonitor [tickSees10, tickSees12_5]).monitor.balance wsol
          = some f12_5
      ∧ (Run sampleEnv sampleMonitor [tickSees10, tickSees12_5]).panicked = false := by
  decide

theorem Run_wsol_unchanged :
    (Run sampleEnv sampleMonitor [tickSees10, tickSees10]).steps
        = [Step.nochange "WSOL" f10, Step.nochange "WSOL" f10]
      ∧ (Run sampleEnv sampleMonitor [tickSees10, tickSees10]).monitor.balance wsol = some f10 := by
  decide

theorem tick_panic_depends_on_order :
    (tick sampleEnv monitorAt10 ⟨[("WSOL", wsol), ("BSOL", bsol)], netBsolNil⟩).panicked = true
      ∧ (tick sampleEnv monitorAt10 ⟨[("BSOL", bsol), ("WSOL", wsol)], netBsolNil⟩).panicked
          = true
      ∧ (tick sampleEnv monitorAt10
            ⟨[("WSOL", wsol), ("BSOL", bsol)], netBsolNil⟩).monitor.balance wsol = some f12_5
      ∧ (tick sampleEnv monitorAt10
            ⟨[("BSOL", bsol), ("WSOL", wsol)], netBsolNil⟩).monitor.balance wsol = some f10 := by
  decide

/-- What `GetAtaBalance` returns when it returns: an error exactly when the address
derivation fails, or the RPC query fails, or `ParseFloat` rejects the `UiAmountString` of
the value, or `SetString` rejects its `Amount`; and then both amounts are 0.  It does not
return exactly when the reply has neither an error nor a value. -/
theorem GetAtaBalance_returned (env : Env) (net : Net) (address mint : PublicKey) :
    (GetAtaBalance env net address mint = none ↔
        ∃ ata bump, env.FindAssociatedTokenAddress address mint = .ok (ata, bump)
          ∧ net.GetTokenAccountBalance ata = .ok none)
      ∧ ∀ r, GetAtaBalance env net address mint = some r →
          (r.2.2 ≠ none ↔
            (∃ e, env.FindAssociatedTokenAddress address mint = .error e)
            ∨ (∃ ata bump e, env.FindAssociatedTokenAddress address mint = .ok (ata, bump)
                ∧ net.GetTokenAccountBalance ata = .error e)
            ∨ (∃ ata bump resp e, env.FindAssociatedTokenAddress address mint = .ok (ata, bump)
                ∧ net.GetTokenAccountBalance ata = .ok (some resp)
                ∧ env.ParseFloat resp.UiAmountString = .error e)
            ∨ (∃ ata bump resp, env.FindAssociatedTokenAddress address mint = .ok (ata, bump)
                ∧ net.GetTokenAccountBalance ata = .ok (some resp)
                ∧ SetString resp.Amount = none))
          ∧ (r.2.2 = none ∨ (r.1 = 0 ∧ r.2.1 = Float64.zero)) := by
  rcases hF : env.FindAssociatedTokenAddress address mint with e | ⟨ata, bump⟩
  · rw [GetAtaBalance_of_derivation_error env net address mint e hF]
    refine ⟨by simp, ?_⟩
    rintro r ⟨⟩
    simp
  · rcases hR : net.GetTokenAccountBalance ata with e | _ | resp
    · rw [GetAtaBalance_of_rpc_error env net address mint ata bump e hF hR]
      refine ⟨⟨fun h => (by cases h), ?_⟩, ?_⟩
      · rintro ⟨ata2, bump2, h1, h2⟩
        cases h1; rw [hR] at h2; cases h2
      · rintro r ⟨⟩
        exact ⟨⟨fun _ => Or.inr (Or.inl ⟨ata, bump, e, rfl, hR⟩), fun _ => by simp⟩,
          Or.inr ⟨rfl, rfl⟩⟩
    · rw [GetAtaBalance_of_nil_value env net address mint ata bump hF hR]
      refine ⟨⟨fun _ => ⟨ata, bump, rfl, hR⟩, fun _ => rfl⟩, ?_⟩
      rintro r ⟨⟩
    · have hnot : ¬ ∃ ata2 bump2, (Except.ok (ata, bump) : Except Error (PublicKey × Nat))
          = .ok (ata2, bump2) ∧ net.GetTokenAccountBalance ata2 = .ok none := by
        rintro ⟨ata2, bump2, h1, h2⟩
        cases h1; rw [hR] at h2; cases h2
      rcases hU : env.ParseFloat resp.UiAmountString with e | a
      · rw [GetAtaBalance_of_float_error env net address mint ata bump resp e hF hR hU]
        refine ⟨⟨fun h => (by cases h), fun h => absurd h hnot⟩, ?_⟩
        rintro r ⟨⟩
        exact ⟨⟨fun _ => Or.inr (Or.inr (Or.inl ⟨ata, bump, resp, e, rfl, hR, hU⟩)),
          fun _ => by simp⟩, Or.inr ⟨rfl, rfl⟩⟩
      · rcases hS : SetString resp.Amount with _ | n
        · rw [GetAtaBalance_of_int_error env net address mint ata bump resp a hF hR hU hS]
          refine ⟨⟨fun h => (by cases h), fun h => absurd h hnot⟩, ?_⟩
          rintro r ⟨⟩
          exact ⟨⟨fun _ => Or.inr (Or.inr (Or.inr ⟨ata, bump, resp, rfl, hR, hS⟩)),
            fun _ => by simp⟩, Or.inr ⟨rfl, rfl⟩⟩
        · rw [GetAtaBalance_of_parsed env net address mint ata bump resp a n hF hR hU hS]
          refine ⟨⟨fun h => (by cases h), fun h => absurd h hnot⟩, ?_⟩
          rintro r ⟨⟩
          refine ⟨⟨fun h => absurd rfl h, ?_⟩, Or.inl rfl⟩
          rintro (⟨e, he⟩ | ⟨ata2, bump2, e, h1, h2⟩ | ⟨ata2, bump2, resp2, e, h1, h2, h3⟩
            | ⟨ata2, bump2, resp2, h1, h2, h3⟩)
          · cases he
          · cases h1; rw [hR] at h2; cases h2
          · cases h1; rw [hR] at h2; cases h2; rw [hU] at h3; cases h3
          · cases h1; rw [hR] at h2; cases h2; rw [hS] at h3; cases h3

/-! ## The claims -/

/-- C1: in any history started from `NewMonitor`, take any poll that is reached (the run
has not died before it) and succeeds with amount `a`: the trace of `Run` is the trace up
to that poll, then what the poll itself did, then the remainder; and the calls of
`sendNotification` made by that poll are exactly one call with the symbol, the prior
snapshot value (0 when absent) and `a` when the prior value is `!= 0` and `!= a`, and none
otherwise. -/
theorem Run_notifies_iff (env : Env) (address : PublicKey) (interval : Nat)
    (mints : List (String × PublicKey)) (earlier later : List Tick) (t : Tick)
    (pre post : List (String × PublicKey)) (name : String) (mint : PublicKey)
    (raw : Nat) (a : Float64)
    (horder : t.order = pre ++ (name, mint) :: post)
    (hreached : (beforePoll env (NewMonitor address interval mints) earlier t pre).panicked
      = false)
    (hfetch : GetAtaBalance env (t.net name) address mint = some (raw, a, none)) :
    (Run env (NewMonitor address interval mints) (earlier ++ t :: later)).steps
        = (beforePoll env (NewMonitor address interval mints) earlier t pre).steps
          ++ (processAsset env (t.net name)
                (beforePoll env (NewMonitor address interval mints) earlier t pre).monitor
                name mint).steps
          ++ ((rangeMints env t.net
                (processAsset env (t.net name)
                  (beforePoll env (NewMonitor address interval mints) earlier t pre).monitor
                  name mint).monitor post).andThen (fun m => Run env m later)).steps
      ∧ notifications
          (processAsset env (t.net name)
            (beforePoll env (NewMonitor address interval mints) earlier t pre).monitor
            name mint).steps
        = if Float64.ne
              ((beforePoll env (NewMonitor address interval mints) earlier t pre).monitor.balanceAt
                mint)
              Float64.zero
            && Float64.ne
              ((beforePoll env (NewMonitor address interval mints) earlier t pre).monitor.balanceAt
                mint)
              a
          then [(name,
                 (beforePoll env (NewMonitor address interval mints) earlier t pre).monitor.balanceAt
                   mint,
                 a)]
          else [] := by
  have haddr :
      (beforePoll env (NewMonitor address interval mints) earlier t pre).monitor.address
        = address := by
    simp only [beforePoll]
    rw [Progress.andThen_address _ _ (rangeMints_address env t.net pre), Run_address]
    rfl
  have hown := processAsset_of_ok env (t.net name)
    (beforePoll env (NewMonitor address interval mints) earlier t pre).monitor name mint raw a
    (by rw [haddr]; exact hfetch)
  have hsplit :
      Run env (NewMonitor address interval mints) (earlier ++ t :: later)
        = (beforePoll env (NewMonitor address interval mints) earlier t pre).andThen
            (fun m1 => (processAsset env (t.net name) m1 name mint).andThen
              (fun m2 => (rangeMints env t.net m2 post).andThen (fun m3 => Run env m3 later))) := by
    simp only [beforePoll, Run_append, Run, tick, horder, rangeMints_append, rangeMints,
      Progress.andThen_assoc]
  constructor
  · rw [hsplit, Progress.andThen_of_alive _ _ hreached]
    simp only
    rw [Progress.andThen_of_alive _ _ (by rw [hown])]
    simp only [List.append_assoc]
  · rw [hown]
    simp only
    split <;> rfl

/-- C1, witness: a first tick sees 10.0 for "WSOL", the next tick sees 12.5. -/
theorem Run_notifies_iff_witness :
    tickSees12_5.order = [] ++ ("WSOL", wsol) :: []
      ∧ (beforePoll sampleEnv (NewMonitor wallet 180000000000 [("WSOL", wsol)])
          [tickSees10] tickSees12_5 []).panicked = false
      ∧ GetAtaBalance sampleEnv (tickSees12_5.net "WSOL") wallet wsol
          = some (12500000000, f12_5, none)
      ∧ notifications
          (processAsset sampleEnv (tickSees12_5.net "WSOL")
            (beforePoll sampleEnv (NewMonitor wallet 180000000000 [("WSOL", wsol)])
              [tickSees10] tickSees12_5 []).monitor "WSOL" wsol).steps
        = if Float64.ne
              ((beforePoll sampleEnv (NewMonitor wallet 180000000000 [("WSOL", wsol)])
                [tickSees10] tickSees12_5 []).monitor.balanceAt wsol)
              Float64.zero
            && Float64.ne
              ((beforePoll sampleEnv (NewMonitor wallet 180000000000 [("WSOL", wsol)])
                [tickSees10] tickSees12_5 []).monitor.balanceAt wsol)
              f12_5
          then [("WSOL",
                 (beforePoll sampleEnv (NewMonitor wallet 180000000000 [("WSOL", wsol)])
                   [tickSees10] tickSees12_5 []).monitor.balanceAt wsol,
                 f12_5)]
          else [] :=
  ⟨rfl, by decide, by decide,
    (Run_notifies_iff sampleEnv wallet 180000000000 [("WSOL", wsol)] [tickSees10] []
      tickSees12_5 [] [] "WSOL" wsol 12500000000 f12_5 rfl (by decide) (by decide)).2⟩

/-- C2: after a successful poll of `mint` returning `a`, the snapshot entry of `mint` is
`a`, whatever the previous entry and whether or not a notification was sent, and every
other entry is as before. -/
theorem processAsset_records (env : Env) (net : Net) (m : Monitor) (name : String)
    (mint : PublicKey) (raw : Nat) (a : Float64)
    (hfetch : GetAtaBalance env net m.address mint = some (raw, a, none)) :
    (processAsset env net m name mint).monitor.balance mint = some a
      ∧ ∀ other, other ≠ mint →
          (processAsset env net m name mint).monitor.balance other = m.balance other := by
  constructor
  · exact processAsset_balance_self env net m name mint raw a hfetch
  · intro other h
    rw [processAsset_of_ok env net m name mint raw a hfetch]
    simp [Monitor.setBalance, h]

/-- C2, witness: "WSOL" at 10.0 is polled and 12.5 comes back. -/
theorem processAsset_records_witness :
    GetAtaBalance sampleEnv netOk monitorAt10.address wsol = some (12500000000, f12_5, none)
      ∧ (processAsset sampleEnv netOk monitorAt10 "WSOL" wsol).monitor.balance wsol
          = some f12_5
      ∧ ∀ other, other ≠ wsol →
          (processAsset sampleEnv netOk monitorAt10 "WSOL" wsol).monitor.balance other
            = monitorAt10.balance other :=
  ⟨by decide,
    processAsset_records sampleEnv netOk monitorAt10 "WSOL" wsol 12500000000 f12_5 (by decide)⟩

/-- C3: when the snapshot has no entry for `mint`, or an entry that is `== 0`, a
successful poll returning `a` calls `sendNotification` not at all, whatever `a` is, and
the snapshot entry becomes `a`. -/
theorem processAsset_first_observation (env : Env) (net : Net) (m : Monitor) (name : String)
    (mint : PublicKey) (raw : Nat) (a : Float64)
    (hprior : m.balance mint = none
      ∨ ∃ v, m.balance mint = some v ∧ Float64.eq v Float64.zero = true)
    (hfetch : GetAtaBalance env net m.address mint = some (raw, a, none)) :
    notifications (processAsset env net m name mint).steps = []
      ∧ (processAsset env net m name mint).steps = [Step.nochange name a]
      ∧ (processAsset env net m name mint).monitor.balance mint = some a := by
  have hz : Float64.ne (m.balanceAt mint) Float64.zero = false := by
    rcases hprior with h | ⟨v, h, hv⟩
    · simp [Monitor.balanceAt, h, Float64.ne, Float64.eq, Float64.zero]
    · simp [Monitor.balanceAt, h, Float64.ne, hv]
  rw [processAsset_of_ok env net m name mint raw a hfetch]
  simp [hz, notifications, Monitor.setBalance]

/-- C3, witness: the first poll of "WSOL" by the fresh sample monitor. -/
theorem processAsset_first_observation_witness :
    (sampleMonitor.balance wsol = none
        ∨ ∃ v, sampleMonitor.balance wsol = some v ∧ Float64.eq v Float64.zero = true)
      ∧ GetAtaBalance sampleEnv netOk sampleMonitor.address wsol
          = some (12500000000, f12_5, none)
      ∧ notifications (processAsset sampleEnv netOk sampleMonitor "WSOL" wsol).steps = []
      ∧ (processAsset sampleEnv netOk sampleMonitor "WSOL" wsol).steps
          = [Step.nochange "WSOL" f12_5]
      ∧ (processAsset sampleEnv netOk sampleMonitor "WSOL" wsol).monitor.balance wsol
          = some f12_5 :=
  ⟨Or.inl rfl, by decide,
    processAsset_first_observation sampleEnv netOk sampleMonitor "WSOL" wsol 12500000000 f12_5
      (Or.inl rfl) (by decide)⟩

/-- C4: when `GetAtaBalance` fails for the asset `(name, mint)` of a tick, the tick leaves
the same snapshot, makes the same calls of `sendNotification` and has the same trace as
the tick that does not visit that asset: the asset changes nothing and the loop goes on. -/
theorem tick_skips_failed_fetch (env : Env) (m : Monitor) (net : String → Net)
    (pre post : List (String × PublicKey)) (name : String) (mint : PublicKey)
    (raw : Nat) (b : Float64) (e : Error)
    (hfetch : GetAtaBalance env (net name) m.address mint = some (raw, b, some e)) :
    (tick env m ⟨pre ++ (name, mint) :: post, net⟩).monitor.balance
        = (tick env m ⟨pre ++ post, net⟩).monitor.balance
      ∧ notifications (tick env m ⟨pre ++ (name, mint) :: post, net⟩).steps
        = notifications (tick env m ⟨pre ++ post, net⟩).steps
      ∧ (tick env m ⟨pre ++ (name, mint) :: post, net⟩).steps
        = (tick env m ⟨pre ++ post, net⟩).steps := by
  have key : tick env m ⟨pre ++ (name, mint) :: post, net⟩ = tick env m ⟨pre ++ post, net⟩ := by
    simp only [tick]
    rw [rangeMints_append, rangeMints_append]
    cases hp : (rangeMints env net m pre).panicked
    · rw [Progress.andThen_of_alive _ _ hp, Progress.andThen_of_alive _ _ hp]
      simp only [rangeMints]
      rw [processAsset_of_error env (net name) _ name mint raw b e
        (by rw [rangeMints_address]; exact hfetch), Progress.done_andThen]
    · rw [Progress.andThen_of_panicked _ _ hp, Progress.andThen_of_panicked _ _ hp]
  rw [key]
  exact ⟨rfl, rfl, rfl⟩

/-- C4, witness: "WSOL" is fetched, then the RPC fails for "BSOL". -/
theorem tick_skips_failed_fetch_witness :
    GetAtaBalance sampleEnv (netBsolDown "BSOL") monitorAt10.address bsol
        = some (0, Float64.zero, some "rpc: 429 too many requests")
      ∧ (tick sampleEnv monitorAt10
            ⟨[("WSOL", wsol)] ++ ("BSOL", bsol) :: [], netBsolDown⟩).monitor.balance
        = (tick sampleEnv monitorAt10 ⟨[("WSOL", wsol)] ++ [], netBsolDown⟩).monitor.balance
      ∧ notifications
          (tick sampleEnv monitorAt10
            ⟨[("WSOL", wsol)] ++ ("BSOL", bsol) :: [], netBsolDown⟩).steps
        = notifications (tick sampleEnv monitorAt10 ⟨[("WSOL", wsol)] ++ [], netBsolDown⟩).steps
      ∧ (tick sampleEnv monitorAt10 ⟨[("WSOL", wsol)] ++ ("BSOL", bsol) :: [], netBsolDown⟩).steps
        = (tick sampleEnv monitorAt10 ⟨[("WSOL", wsol)] ++ [], netBsolDown⟩).steps :=
  ⟨by decide,
    tick_skips_failed_fetch sampleEnv monitorAt10 netBsolDown [("WSOL", wsol)] [] "BSOL" bsol
      0 Float64.zero "rpc: 429 too many requests" (by decide)⟩

/-- C5, counterexample: for the symbol "DOGE", which has no entry in `keyToRMB`, and the
amounts 1.0 -> 2.0, the title carries the figure 0 while the delta 1.0 is positive. -/
theorem sendNotification_unknown_symbol_figure_zero :
    sendNotification (.body "ok") "DOGE" f1 f2
        = [ .printTitle ⟨Float64.zero, "DOGE", f1, f1, f2⟩,
            .httpGet ⟨Float64.zero, "DOGE", f1, f1, f2⟩,
            .printBody "ok" ]
      ∧ Float64.lt Float64.zero f1 = true
      ∧ Float64.lt Float64.zero Float64.zero = false
      ∧ Float64.sameSign Float64.zero f1 = false := by
  decide!

/-- C5, amended: for every symbol that has an entry in `keyToRMB` and every pair of amounts,
the title that `sendNotification` prints first and sends carries as its first figure the
float64 product of the rate of that symbol and the float64 difference `after - before`,
and this figure has the sign of that difference. -/
theorem sendNotification_figure (name : String)
    (hname : name ∈ keyToRMBTable.map Prod.fst) (http : HttpOutcome)
    (before after : Float64) :
    (sendNotification http name before after).head?
        = some (Effect.printTitle (notificationTitle name before after))
      ∧ Effect.httpGet (notificationTitle name before after)
          ∈ sendNotification http name before after
      ∧ (notificationTitle name before after).rmb
          = Float64.mul (keyToRMB name) (Float64.sub after before)
      ∧ Float64.sameSign (notificationTitle name before after).rmb
          (Float64.sub after before) = true := by
  obtain ⟨kr, hkr, hrate⟩ := keyToRMB_ge_one name hname
  refine ⟨?_, ?_, rfl, ?_⟩
  · cases http <;> rfl
  · cases http <;> simp [sendNotification]
  · show Float64.sameSign (Float64.mul (keyToRMB name) (Float64.sub after before)) _ = true
    rw [hrate]
    exact Float64.mul_sameSign kr hkr _

/-- C5, witness: "WSOL", 10.0 -> 12.5. -/
theorem sendNotification_figure_witness :
    "WSOL" ∈ keyToRMBTable.map Prod.fst
      ∧ (sendNotification (.body "ok") "WSOL" f10 f12_5).head?
          = some (Effect.printTitle (notificationTitle "WSOL" f10 f12_5))
      ∧ Effect.httpGet (notificationTitle "WSOL" f10 f12_5)
          ∈ sendNotification (.body "ok") "WSOL" f10 f12_5
      ∧ (notificationTitle "WSOL" f10 f12_5).rmb
          = Float64.mul (keyToRMB "WSOL") (Float64.sub f12_5 f10)
      ∧ Float64.sameSign (notificationTitle "WSOL" f10 f12_5).rmb
          (Float64.sub f12_5 f10) = true :=
  ⟨by decide, sendNotification_figure "WSOL" (by decide) (.body "ok") f10 f12_5⟩

/-- C6, counterexample: "WSOL" stands at 10.0, the poll returns 12.5, `sendNotification`
is called and its `http.Get` fails; the snapshot entry is 12.5 afterwards, not 10.0. -/
theorem failed_delivery_still_overwrites_snapshot :
    monitorAt10.balance wsol = some f10
      ∧ (processAsset sampleEnv netHttpFail monitorAt10 "WSOL" wsol).steps
          = [ Step.sendNotification "WSOL" f10 f12_5
                [ .printTitle (notificationTitle "WSOL" f10 f12_5),
                  .httpGet (notificationTitle "WSOL" f10 f12_5),
                  .printErr "dial tcp: i/o timeout" ] ]
      ∧ (processAsset sampleEnv netHttpFail monitorAt10 "WSOL" wsol).monitor.balance wsol
          = some f12_5
      ∧ (processAsset sampleEnv netHttpFail monitorAt10 "WSOL" wsol).monitor.balance wsol
          ≠ monitorAt10.balance wsol := by
  decide!

/-- C6, amended: an address-derivation failure, an RPC failure and a failure to parse the
response each leave the whole snapshot unchanged when an asset is processed; a failure to
deliver the notification (in `http.Get` or in reading the response) does not: after a
successful poll returning `a` the snapshot entry is `a`. -/
theorem processAsset_snapshot_on_errors (env : Env) (net : Net) (m : Monitor) (name : String)
    (mint : PublicKey) :
    (∀ e, env.FindAssociatedTokenAddress m.address mint = .error e →
        (processAsset env net m name mint).monitor.balance = m.balance)
      ∧ (∀ ata bump e, env.FindAssociatedTokenAddress m.address mint = .ok (ata, bump) →
          net.GetTokenAccountBalance ata = .error e →
          (processAsset env net m name mint).monitor.balance = m.balance)
      ∧ (∀ ata bump resp, env.FindAssociatedTokenAddress m.address mint = .ok (ata, bump) →
          net.GetTokenAccountBalance ata = .ok (some resp) →
          ((∃ e, env.ParseFloat resp.UiAmountString = .error e) ∨ SetString resp.Amount = none) →
          (processAsset env net m name mint).monitor.balance = m.balance)
      ∧ (∀ raw a, GetAtaBalance env net m.address mint = some (raw, a, none) →
          (∃ e, net.http = .getErr e ∨ net.http = .readErr e) →
          (processAsset env net m name mint).monitor.balance mint = some a) := by
  refine ⟨?_, ?_, ?_, ?_⟩
  · intro e h
    rw [processAsset_of_error env net m name mint _ _ e
      (GetAtaBalance_of_derivation_error env net _ _ e h)]
  · intro ata bump e h hr
    rw [processAsset_of_error env net m name mint _ _ e
      (GetAtaBalance_of_rpc_error env net _ _ ata bump e h hr)]
  · intro ata bump resp h hr hp
    rcases hu : env.ParseFloat resp.UiAmountString with e | a
    · rw [processAsset_of_error env net m name mint _ _ e
        (GetAtaBalance_of_float_error env net _ _ ata bump resp e h hr hu)]
    · rcases hp with ⟨e, he⟩ | hs
      · rw [hu] at he; cases he
      · rw [processAsset_of_error env net m name mint _ _ _
          (GetAtaBalance_of_int_error env net _ _ ata bump resp a h hr hu hs)]
  · intro raw a h _
    exact processAsset_balance_self env net m name mint raw a h

/-- C6, witness: the RPC fails for "WSOL" (snapshot kept), and the webhook fails for "WSOL"
after a successful poll (snapshot overwritten). -/
theorem processAsset_snapshot_on_errors_witness :
    sampleEnv.FindAssociatedTokenAddress monitorAt10.address wsol = .ok (⟨1002⟩, 255)
      ∧ netRpcFail.GetTokenAccountBalance ⟨1002⟩ = .error "rpc: 429 too many requests"
      ∧ (processAsset sampleEnv netRpcFail monitorAt10 "WSOL" wsol).monitor.balance
          = monitorAt10.balance
      ∧ GetAtaBalance sampleEnv netHttpFail monitorAt10.address wsol
          = some (12500000000, f12_5, none)
      ∧ netHttpFail.http = .getErr "dial tcp: i/o timeout"
      ∧ (processAsset sampleEnv netHttpFail monitorAt10 "WSOL" wsol).monitor.balance wsol
          = some f12_5 :=
  ⟨rfl, rfl,
    (processAsset_snapshot_on_errors sampleEnv netRpcFail monitorAt10 "WSOL" wsol).2.1
      ⟨1002⟩ 255 "rpc: 429 too many requests" rfl rfl,
    by decide, rfl,
    (processAsset_snapshot_on_errors sampleEnv netHttpFail monitorAt10 "WSOL" wsol).2.2.2
      12500000000 f12_5 (by decide) ⟨"dial tcp: i/o timeout", Or.inl rfl⟩⟩

/-- C7, failing input: the address derivation succeeds and the RPC call answers with a nil
error and a result that carries no value.  None of the four failures has occurred, yet
`GetAtaBalance` returns neither an error nor amounts: reading `balanceResp.Value.Amount`
panics, and the panic ends `Run` at its first tick, with nothing recorded. -/
theorem GetAtaBalance_nil_value_panics :
    sampleEnv.FindAssociatedTokenAddress wallet wsol = .ok (⟨1002⟩, 255)
      ∧ netNilValue.GetTokenAccountBalance ⟨1002⟩ = .ok none
      ∧ GetAtaBalance sampleEnv netNilValue wallet wsol = none
      ∧ (Run sampleEnv sampleMonitor [tickNilValue, tickSees12_5]).panicked = true
      ∧ (Run sampleEnv sampleMonitor [tickNilValue, tickSees12_5]).steps = []
      ∧ (Run sampleEnv sampleMonitor [tickNilValue, tickSees12_5]).monitor.balance wsol
          = none := by
  refine ⟨rfl, rfl, by decide, by decide, by decide, by decide⟩

/-- C8, counterexample: the response carries the raw amount "-5", which `SetString` reads
as -5; `GetAtaBalance` succeeds and returns the raw amount 5. -/
theorem GetAtaBalance_negative_amount :
    netNegative.GetTokenAccountBalance ⟨1002⟩ = .ok (some ⟨"-5", "10"⟩)
      ∧ SetString "-5" = some (-5)
      ∧ GetAtaBalance sampleEnv netNegative wallet wsol = some (5, f10, none)
      ∧ ((5 : Nat) : Int) ≠ -5 := by
  refine ⟨rfl, by decide, by decide, by decide⟩

/-- C8, amended: when the derivation and the RPC query succeed, the `UiAmountString` of the
response parses to `a` and its `Amount` denotes an integer `n` with `0 ≤ n < 2^64`,
`GetAtaBalance` succeeds, its raw amount is `n` and its display amount is `a`. -/
theorem GetAtaBalance_amounts (env : Env) (net : Net) (address mint ata : PublicKey)
    (bump : Nat) (resp : UiTokenAmount) (a : Float64) (n : Int)
    (hF : env.FindAssociatedTokenAddress address mint = .ok (ata, bump))
    (hR : net.GetTokenAccountBalance ata = .ok (some resp))
    (hU : env.ParseFloat resp.UiAmountString = .ok a)
    (hS : SetString resp.Amount = some n)
    (h0 : 0 ≤ n) (h64 : n < 2 ^ 64) :
    GetAtaBalance env net address mint = some (n.toNat, a, none)
      ∧ ((n.toNat : Nat) : Int) = n := by
  rw [GetAtaBalance_of_parsed env net address mint ata bump resp a n hF hR hU hS]
  have h1 : (n.natAbs : Int) = n := Int.natAbs_of_nonneg h0
  have h2 : n.natAbs < 2 ^ 64 := by omega
  have h3 : n.toNat = n.natAbs := by omega
  refine ⟨?_, Int.toNat_of_nonneg h0⟩
  unfold Uint64
  rw [Nat.mod_eq_of_lt h2, h3]

/-- C8, witness: the response ("12500000000", "12.5"). -/
theorem GetAtaBalance_amounts_witness :
    sampleEnv.FindAssociatedTokenAddress wallet wsol = .ok (⟨1002⟩, 255)
      ∧ netOk.GetTokenAccountBalance ⟨1002⟩ = .ok (some ⟨"12500000000", "12.5"⟩)
      ∧ sampleEnv.ParseFloat "12.5" = .ok f12_5
      ∧ SetString "12500000000" = some 12500000000
      ∧ (0 : Int) ≤ 12500000000 ∧ (12500000000 : Int) < 2 ^ 64
      ∧ GetAtaBalance sampleEnv netOk wallet wsol
          = some ((12500000000 : Int).toNat, f12_5, none)
      ∧ (((12500000000 : Int).toNat : Nat) : Int) = 12500000000 :=
  ⟨rfl, rfl, rfl, by decide, by decide, by decide,
    GetAtaBalance_amounts sampleEnv netOk wallet wsol ⟨1002⟩ 255 ⟨"12500000000", "12.5"⟩ f12_5
      12500000000 rfl rfl rfl (by decide) (by decide) (by decide)⟩

/-- C9, counterexample: the RPC query fails while "WSOL" is processed; `GetAtaBalance`
returns the error and the loop body prints nothing at all. -/
theorem processAsset_failed_fetch_prints_nothing :
    GetAtaBalance sampleEnv netRpcFail monitorAt10.address wsol
        = some (0, Float64.zero, some "rpc: 429 too many requests")
      ∧ (processAsset sampleEnv netRpcFail monitorAt10 "WSOL" wsol).steps = []
      ∧ console (processAsset sampleEnv netRpcFail monitorAt10 "WSOL" wsol).steps = [] := by
  decide

/-- C9, amended: a failed `GetAtaBalance` is absorbed without console output; a failed
webhook request is logged: when `http.Get` fails in the notification of a poll, the
console shows the title and then the error. -/
theorem failed_delivery_logged_failed_fetch_silent (env : Env) (net : Net) (m : Monitor)
    (name : String) (mint : PublicKey) :
    (∀ raw b e, GetAtaBalance env net m.address mint = some (raw, b, some e) →
        console (processAsset env net m name mint).steps = [])
      ∧ (∀ raw a e, GetAtaBalance env net m.address mint = some (raw, a, none) →
          net.http = .getErr e →
          Float64.ne (m.balanceAt mint) Float64.zero = true →
          Float64.ne (m.balanceAt mint) a = true →
          console (processAsset env net m name mint).steps
            = [ .printTitle (notificationTitle name (m.balanceAt mint) a), .printErr e ]) := by
  constructor
  · intro raw b e h
    rw [processAsset_of_error env net m name mint raw b e h]
    rfl
  · intro raw a e h hhttp h0 h1
    rw [processAsset_of_ok env net m name mint raw a h]
    simp [h0, h1, hhttp, console, sendNotification]

/-- C9, witness: the RPC fails for "WSOL"; and "WSOL" goes from 10.0 to 12.5 while the
webhook is unreachable. -/
theorem failed_delivery_logged_failed_fetch_silent_witness :
    GetAtaBalance sampleEnv netRpcFail monitorAt10.address wsol
        = some (0, Float64.zero, some "rpc: 429 too many requests")
      ∧ console (processAsset sampleEnv netRpcFail monitorAt10 "WSOL" wsol).steps = []
      ∧ GetAtaBalance sampleEnv netHttpFail monitorAt10.address wsol
          = some (12500000000, f12_5, none)
      ∧ netHttpFail.http = .getErr "dial tcp: i/o timeout"
      ∧ Float64.ne (monitorAt10.balanceAt wsol) Float64.zero = true
      ∧ Float64.ne (monitorAt10.balanceAt wsol) f12_5 = true
      ∧ console (processAsset sampleEnv netHttpFail monitorAt10 "WSOL" wsol).steps
          = [ .printTitle (notificationTitle "WSOL" (monitorAt10.balanceAt wsol) f12_5),
              .printErr "dial tcp: i/o timeout" ] :=
  ⟨by decide,
    (failed_delivery_logged_failed_fetch_silent sampleEnv netRpcFail monitorAt10 "WSOL" wsol).1
      0 Float64.zero "rpc: 429 too many requests" (by decide),
    by decide, rfl, by decide, by decide,
    (failed_delivery_logged_failed_fetch_silent sampleEnv netHttpFail monitorAt10 "WSOL" wsol).2
      12500000000 f12_5 "dial tcp: i/o timeout" (by decide) rfl (by decide) (by decide)⟩

/-- C10: when the tracked assets of `m` have pairwise distinct mints, take two ticks that
visit `m.mints` in two orders, with the same answers of the network for each symbol.
Either both die of a panic, or both complete, and then they leave the same monitor (the
same snapshot) and make the same calls of `sendNotification` as a multiset. -/
theorem tick_order_independent (env : Env) (m : Monitor) (t1 t2 : Tick)
    (h1 : t1.visits m) (h2 : t2.visits m) (hnet : t1.net = t2.net)
    (hmints : (m.mints.map Prod.snd).Nodup) :
    (tick env m t1).panicked = (tick env m t2).panicked
      ∧ ((tick env m t1).panicked = false →
          (tick env m t1).monitor = (tick env m t2).monitor
            ∧ Multiset.ofList (notifications (tick env m t1).steps)
                = Multiset.ofList (notifications (tick env m t2).steps)) := by
  have hperm : t1.order.Perm t2.order := List.Perm.trans h1 (List.Perm.symm h2)
  have hnd : (t1.order.map Prod.snd).Nodup :=
    (List.Perm.nodup_iff (List.Perm.map Prod.snd h1)).mpr hmints
  have h := rangeMints_perm env t1.net hperm hnd m
  simp only [tick]
  rw [← hnet]
  exact ⟨h.1, fun ha => ⟨(h.2 ha).1, Multiset.coe_eq_coe.mpr (h.2 ha).2⟩⟩

/-- C10, witness: "WSOL" then "BSOL", and "BSOL" then "WSOL"; both ticks complete. -/
theorem tick_order_independent_witness :
    Tick.visits ⟨[("WSOL", wsol), ("BSOL", bsol)], netBsolDown⟩ monitorAt10
      ∧ Tick.visits ⟨[("BSOL", bsol), ("WSOL", wsol)], netBsolDown⟩ monitorAt10
      ∧ (monitorAt10.mints.map Prod.snd).Nodup
      ∧ (tick sampleEnv monitorAt10 ⟨[("WSOL", wsol), ("BSOL", bsol)], netBsolDown⟩).panicked
          = false
      ∧ (tick sampleEnv monitorAt10 ⟨[("WSOL", wsol), ("BSOL", bsol)], netBsolDown⟩).monitor
          = (tick sampleEnv monitorAt10 ⟨[("BSOL", bsol), ("WSOL", wsol)], netBsolDown⟩).monitor
      ∧ Multiset.ofList
            (notifications
              (tick sampleEnv monitorAt10
                ⟨[("WSOL", wsol), ("BSOL", bsol)], netBsolDown⟩).steps)
          = Multiset.ofList
            (notifications
              (tick sampleEnv monitorAt10
                ⟨[("BSOL", bsol), ("WSOL", wsol)], netBsolDown⟩).steps) :=
  ⟨List.Perm.refl _, List.Perm.swap _ _ _, by decide, by decide,
    (tick_order_independent sampleEnv monitorAt10
      ⟨[("WSOL", wsol), ("BSOL", bsol)], netBsolDown⟩
      ⟨[("BSOL", bsol), ("WSOL", wsol)], netBsolDown⟩
      (List.Perm.refl _) (List.Perm.swap _ _ _) rfl (by decide)).2 (by decide)⟩

end Main
